import Mathlib

/-!
A verification development for the FrankyX Weather Manager guardrail core
(`weather_manager/callbacks.py` and the session cache in
`weather_manager/agent.py`).

Modelling conventions:
- A parsed JSON tool result is a `JsonDoc` recording exactly the fields the
  core ever consults (`error`, `full_address`, `daily`); `json.loads`
  returning a non-dict value is the constructor `StoredJson.notDict`, and a
  JSON decode failure is `ToolResult.invalidJson`.
- Python `dict.get(key, default)` on an optional field is `Option.getD`.
- Python `max`/`min` on a possibly empty list raise `ValueError`; they are
  modelled as `pyMax`/`pyMin : List ℚ → Option ℚ` returning `none` on `[]`,
  and every hazard check therefore returns `Option Bool`, with `none`
  standing for a raised exception propagating out of the callback.
- Numeric daily values are rationals (IEEE doubles without NaN embed into ℚ
  with identical order), weather codes are integers.
- The audit trail is the ordered list of logger events the callback emits.
-/

namespace FrankyX

/-- Severity thresholds, named constants from `callbacks.py`. -/
def TORNADO_GUST_KMH : ℚ := 80

def BLIZZARD_WIND_KMH : ℚ := 56

def BLIZZARD_TEMP_C : ℚ := 0

def FLOOD_PRECIP_MM : ℚ := 25

def EXTREME_HEAT_C : ℚ := 35

def EXTREME_COLD_C : ℚ := 0

def HIGH_WIND_KMH : ℚ := 40

def HIGH_UV_INDEX : ℚ := 6

def MODERATE_PRECIP_PROB : ℚ := 60

/-- The `daily` sub-dictionary of a forecast document: the ten per-day data
sequences, each optional (a missing key in the JSON object). -/
structure DailyData where
  weather_code : Option (List ℤ)
  wind_gusts_10m_max : Option (List ℚ)
  wind_speed_10m_max : Option (List ℚ)
  temperature_2m_max : Option (List ℚ)
  temperature_2m_min : Option (List ℚ)
  precipitation_sum : Option (List ℚ)
  precipitation_probability_max : Option (List ℚ)
  apparent_temperature_max : Option (List ℚ)
  apparent_temperature_min : Option (List ℚ)
  uv_index_max : Option (List ℚ)
  deriving DecidableEq, Repr

/-- A parsed JSON object from a tool result, restricted to the keys the core
consults: the `error` key of an error envelope, the geocoder key
`full_address`, and the forecast key `daily`. -/
structure JsonDoc where
  error : Option String
  full_address : Option String
  daily : Option DailyData
  deriving DecidableEq, Repr

/-- A value stored by `json.loads`: either a JSON object or a non-dict JSON
value (list, number, string, ...), which `after_model_callback` filters out
with its `isinstance(..., dict)` test. -/
inductive StoredJson where
  | notDict : StoredJson
  | obj : JsonDoc → StoredJson
  deriving DecidableEq, Repr

/-- Outcome of `json.loads(result)` on a raw tool result string: a decode
failure (caught `JSONDecodeError`/`TypeError`) or a parsed value. -/
inductive ToolResult where
  | invalidJson : ToolResult
  | parsed : StoredJson → ToolResult
  deriving DecidableEq, Repr

/-- The callback-visible session state dictionary: the two keys written by
`after_tool_callback` and read by `after_model_callback`. -/
structure CbState where
  confirmed_location : Option String
  raw_weather_data : Option StoredJson
  deriving DecidableEq, Repr

/-- Python `max` over a list of numbers: raises (`none`) on the empty list,
otherwise folds the binary maximum over the elements. -/
def pyMax : List ℚ → Option ℚ
  | [] => none
  | x :: xs => some (xs.foldl max x)

/-- Python `min` over a list of numbers: raises (`none`) on the empty list,
otherwise folds the binary minimum over the elements. -/
def pyMin : List ℚ → Option ℚ
  | [] => none
  | x :: xs => some (xs.foldl min x)

/-- `_get_daily_data(data, key, default)`: safely retrieves a value from the
`daily` data dictionary, i.e. `data.get("daily", {}).get(key, default)`.
The field accessor plays the role of the string key. -/
def _get_daily_data {α : Type} (d : JsonDoc) (key : DailyData → Option α) (default : α) : α :=
  match d.daily with
  | none => default
  | some dd => (key dd).getD default

/-- `_check_tornadic_conditions`: TIER 3, any weather code in {95, 96, 99}
and `max(wind_gusts_10m_max)` strictly above the 80 km/h threshold. -/
def _check_tornadic_conditions (d : JsonDoc) : Option Bool := do
  let has_severe_thunderstorm :=
    (_get_daily_data d DailyData.weather_code []).any (fun c => c == 95 || c == 96 || c == 99)
  let g ← pyMax (_get_daily_data d DailyData.wind_gusts_10m_max [0])
  pure (has_severe_thunderstorm && decide (g > TORNADO_GUST_KMH))

/-- `_check_blizzard_conditions`: TIER 3, heavy-snow code 75 present, high
winds, and maximum temperature below freezing. -/
def _check_blizzard_conditions (d : JsonDoc) : Option Bool := do
  let is_heavy_snow := (_get_daily_data d DailyData.weather_code []).contains 75
  let w ← pyMax (_get_daily_data d DailyData.wind_speed_10m_max [0])
  let t ← pyMax (_get_daily_data d DailyData.temperature_2m_max [1])
  pure (is_heavy_snow && decide (w > BLIZZARD_WIND_KMH) && decide (t < BLIZZARD_TEMP_C))

/-- `_check_flood_watch`: TIER 2, maximum daily precipitation sum above
25 mm. -/
def _check_flood_watch (d : JsonDoc) : Option Bool := do
  let p ← pyMax (_get_daily_data d DailyData.precipitation_sum [0])
  pure (decide (p > FLOOD_PRECIP_MM))

/-- `_check_ice_storm`: TIER 2, any freezing-rain code in {66, 67}. -/
def _check_ice_storm (d : JsonDoc) : Option Bool :=
  pure ((_get_daily_data d DailyData.weather_code []).any (fun c => c == 66 || c == 67))

/-- `_check_extreme_temps`: TIER 2, apparent maximum above 35 C or apparent
minimum below 0 C. -/
def _check_extreme_temps (d : JsonDoc) : Option Bool := do
  let h ← pyMax (_get_daily_data d DailyData.apparent_temperature_max [0])
  let c ← pyMin (_get_daily_data d DailyData.apparent_temperature_min [100])
  pure (decide (h > EXTREME_HEAT_C) || decide (c < EXTREME_COLD_C))

/-- `_check_dense_fog`: TIER 2, any fog code in {45, 48}. -/
def _check_dense_fog (d : JsonDoc) : Option Bool :=
  pure ((_get_daily_data d DailyData.weather_code []).any (fun c => c == 45 || c == 48))

/-- `_check_high_winds`: TIER 1, maximum wind speed above 40 km/h. -/
def _check_high_winds (d : JsonDoc) : Option Bool := do
  let w ← pyMax (_get_daily_data d DailyData.wind_speed_10m_max [0])
  pure (decide (w > HIGH_WIND_KMH))

/-- `_check_uv_index`: TIER 1, maximum UV index at least 6. -/
def _check_uv_index (d : JsonDoc) : Option Bool := do
  let u ← pyMax (_get_daily_data d DailyData.uv_index_max [0])
  pure (decide (u ≥ HIGH_UV_INDEX))

/-- `_check_moderate_precipitation`: TIER 1, maximum precipitation
probability above 60 percent. -/
def _check_moderate_precipitation (d : JsonDoc) : Option Bool := do
  let p ← pyMax (_get_daily_data d DailyData.precipitation_probability_max [0])
  pure (decide (p > MODERATE_PRECIP_PROB))

/-- The severity-tiered hazard vocabulary; `extremeTemps` is the single
combined check the code runs for extreme heat or cold. -/
inductive Hazard where
  | tornado | blizzard
  | floodWatch | iceStorm | extremeTemps | denseFog
  | highWinds | highUV | moderatePrecip
  deriving DecidableEq, Repr

/-- Severity tier of a hazard (3 = mandatory override, 2/1 = advisory). -/
def tier : Hazard → Nat
  | .tornado | .blizzard => 3
  | .floodWatch | .iceStorm | .extremeTemps | .denseFog => 2
  | .highWinds | .highUV | .moderatePrecip => 1

/-- All hazards in the order the guardrail evaluates them. -/
def hazardList : List Hazard :=
  [.tornado, .blizzard, .floodWatch, .iceStorm, .extremeTemps, .denseFog,
   .highWinds, .highUV, .moderatePrecip]

/-- Runs the nine hazard checks in guardrail order, propagating a raised
exception (`none`) from any of them; on success returns the triggered flag
of each hazard. -/
def runChecks (d : JsonDoc) : Option (Hazard → Bool) := do
  let t ← _check_tornadic_conditions d
  let b ← _check_blizzard_conditions d
  let fl ← _check_flood_watch d
  let ic ← _check_ice_storm d
  let et ← _check_extreme_temps d
  let fo ← _check_dense_fog d
  let hw ← _check_high_winds d
  let uv ← _check_uv_index d
  let mp ← _check_moderate_precipitation d
  pure (fun h => match h with
    | .tornado => t
    | .blizzard => b
    | .floodWatch => fl
    | .iceStorm => ic
    | .extremeTemps => et
    | .denseFog => fo
    | .highWinds => hw
    | .highUV => uv
    | .moderatePrecip => mp)

/-- `classify(forecast)`: the set (as an ordered list) of hazards triggered
by a forecast document, `none` if a check raises. -/
def classify (d : JsonDoc) : Option (List Hazard) :=
  (runChecks d).map (fun f => hazardList.filter f)

/-- Whether the list `pat` occurs at the head of `hay`. -/
def leadsWith : List Char → List Char → Bool
  | [], _ => true
  | _ :: _, [] => false
  | a :: pat, b :: hay => a == b && leadsWith pat hay

/-- Whether the list `pat` occurs contiguously anywhere in `hay`. -/
def listHasSub (pat : List Char) : List Char → Bool
  | [] => leadsWith pat []
  | b :: hay => leadsWith pat (b :: hay) || listHasSub pat hay

/-- Python substring containment `pat in hay` for strings. -/
def strContains (hay pat : String) : Bool :=
  listHasSub pat.data hay.data

/-- The mandatory Tier-3 Tornado marker literal. -/
def TORNADO_MARKER : String := "SEVERE WEATHER ALERT: TORNADO POTENTIAL"

/-- The mandatory Tier-3 Blizzard marker literal. -/
def BLIZZARD_MARKER : String := "SEVERE WEATHER ALERT: BLIZZARD CONDITIONS"

/-- The fixed fallback-to-authority replacement text for a Tier-3 marker
violation. -/
def TIER3_FALLBACK : String :=
  "I have detected a potentially severe weather event, but I am unable to generate the specific safety alert. Please consult your local weather authority immediately."

/-- Whether a candidate text carries the marker that counts as disclosing
the given hazard (for `extremeTemps` either the heat or the cold advisory
wording is accepted, mirroring the disjunction in the code). -/
def markerOk (h : Hazard) (text : String) : Bool :=
  match h with
  | .tornado => strContains text TORNADO_MARKER
  | .blizzard => strContains text BLIZZARD_MARKER
  | .floodWatch => strContains text "Flood Watch"
  | .iceStorm => strContains text "Ice Storm Advisory"
  | .extremeTemps => strContains text "Heat Advisory" || strContains text "Cold Advisory"
  | .denseFog => strContains text "Dense Fog Advisory"
  | .highWinds => strContains text "High Winds"
  | .highUV => strContains text "High UV Index"
  | .moderatePrecip => strContains text "prepare for wet or slick conditions"

/-- The logger events `after_model_callback` can emit, in source order. -/
inductive AuditEvent where
  | validationStart
  | skippedNoData
  | tornadoViolation
  | blizzardViolation
  | floodNotice
  | iceNotice
  | tempNotice
  | fogNotice
  | windNotice
  | uvNotice
  | precipNotice
  | validationComplete
  deriving DecidableEq, Repr

/-- The Tier-2/1 advisory log entries of `callbacks.py` lines 136-155, one
per hazard that is triggered while its marker is absent from the text. -/
def tier21Events (fl ic et fo hw uv mp : Bool) (text : String) : List AuditEvent :=
  (if fl && !(strContains text "Flood Watch") then [AuditEvent.floodNotice] else []) ++
  (if ic && !(strContains text "Ice Storm Advisory") then [AuditEvent.iceNotice] else []) ++
  (if et && !(strContains text "Heat Advisory" || strContains text "Cold Advisory") then
    [AuditEvent.tempNotice] else []) ++
  (if fo && !(strContains text "Dense Fog Advisory") then [AuditEvent.fogNotice] else []) ++
  (if hw && !(strContains text "High Winds") then [AuditEvent.windNotice] else []) ++
  (if uv && !(strContains text "High UV Index") then [AuditEvent.uvNotice] else []) ++
  (if mp && !(strContains text "prepare for wet or slick conditions") then
    [AuditEvent.precipNotice] else [])

/-- `after_model_callback(output, session)`: the guardrail engine. Returns
the released text together with the audit-event trail, or `none` when a
hazard check raises. Mirrors `callbacks.py` lines 109-158: skip without a
stored weather dict; Tier-3 checks first, each terminal on a missing
marker; then the Tier-2/1 advisory notices that never alter the text. -/
def after_model_callback (state : CbState) (text : String) :
    Option (String × List AuditEvent) :=
  match state.raw_weather_data with
  | none => some (text, [.validationStart, .skippedNoData])
  | some .notDict => some (text, [.validationStart, .skippedNoData])
  | some (.obj d) => do
    let torn ← _check_tornadic_conditions d
    if torn && !(strContains text TORNADO_MARKER) then
      pure (TIER3_FALLBACK, [.validationStart, .tornadoViolation])
    else do
      let bliz ← _check_blizzard_conditions d
      if bliz && !(strContains text BLIZZARD_MARKER) then
        pure (TIER3_FALLBACK, [.validationStart, .blizzardViolation])
      else do
        let fl ← _check_flood_watch d
        let ic ← _check_ice_storm d
        let et ← _check_extreme_temps d
        let fo ← _check_dense_fog d
        let hw ← _check_high_winds d
        let uv ← _check_uv_index d
        let mp ← _check_moderate_precipitation d
        pure (text, [AuditEvent.validationStart] ++ tier21Events fl ic et fo hw uv mp text ++
          [AuditEvent.validationComplete])

/-- `after_tool_callback(tool_name, result, session)`: parses the tool
result, stores raw weather data for the forecast tool, and stores the
confirmed location for the geocoder tool when the parsed object carries a
`full_address` key; a decode failure leaves the state unchanged. -/
def after_tool_callback (tool_name : String) (result : ToolResult) (state : CbState) :
    CbState :=
  match result with
  | .invalidJson => state
  | .parsed v =>
    if tool_name == "get_weather_for_location" then
      { state with raw_weather_data := some v }
    else if tool_name == "get_coordinates_for_location_string" then
      match v with
      | .notDict => state
      | .obj doc =>
        match doc.full_address with
        | some addr => { state with confirmed_location := some addr }
        | none => state
    else state

/-- One lap of `after_model_callback` viewed as a session-state transformer:
the callback reads the session state but never calls `set_state`, so the
state component of the result is the input state. -/
def validateRun (state : CbState) (text : String) :
    Option (CbState × String × List AuditEvent) :=
  (after_model_callback state text).map (fun p => (state, p.1, p.2))

/-- A per-conversation record of the session cache in `agent.py`. -/
structure SessionRec where
  confirmed_location : Option String
  last_weather_data : Option StoredJson
  deriving DecidableEq, Repr

/-- The session cache, keyed by session id. -/
def Store : Type := List (String × SessionRec)

/-- `get_session(session_id)`: creates the record with both fields null if
the id is absent, otherwise returns the existing record untouched;
returns the updated cache alongside the record. -/
def get_session (store : Store) (sid : String) : Store × SessionRec :=
  match List.lookup sid store with
  | some rec => (store, rec)
  | none => ((sid, ⟨none, none⟩) :: store, ⟨none, none⟩)

/-- A patch for the session-store update operation: an outer `none` means
the field is not named by the patch. -/
structure SessionPatch where
  confirmed_location : Option (Option String)
  last_weather_data : Option (Option StoredJson)
  deriving DecidableEq, Repr

/-- Modelled from the spec: the Session State Store operation
`update(sessionId, patch)` has no implementation under `src/` (the spec
gives its contract in section 4.3); it merges the named fields of the patch
into the existing record and leaves unspecified fields untouched. An id
with no record is left alone (the contract speaks only of the existing
record). -/
def update (store : Store) (sid : String) (p : SessionPatch) : Store :=
  match List.lookup sid store with
  | none => store
  | some r =>
    (sid, { confirmed_location := p.confirmed_location.getD r.confirmed_location,
            last_weather_data := p.last_weather_data.getD r.last_weather_data }) :: store

/-- The forecast document with no `daily` key at all. -/
def emptyDoc : JsonDoc := { error := none, full_address := none, daily := none }

/-- The `daily` dictionary with every key absent. -/
def emptyDaily : DailyData :=
  { weather_code := none, wind_gusts_10m_max := none, wind_speed_10m_max := none,
    temperature_2m_max := none, temperature_2m_min := none, precipitation_sum := none,
    precipitation_probability_max := none, apparent_temperature_max := none,
    apparent_temperature_min := none, uv_index_max := none }

/-- Every one of the ten daily sequences is either absent or present as an
empty list (the hypothesis of the spec sentence on sentinel defaults). -/
def allAbsentOrEmpty (d : JsonDoc) : Bool :=
  match d.daily with
  | none => true
  | some dd =>
    (dd.weather_code == none || dd.weather_code == some []) &&
    (dd.wind_gusts_10m_max == none || dd.wind_gusts_10m_max == some []) &&
    (dd.wind_speed_10m_max == none || dd.wind_speed_10m_max == some []) &&
    (dd.temperature_2m_max == none || dd.temperature_2m_max == some []) &&
    (dd.temperature_2m_min == none || dd.temperature_2m_min == some []) &&
    (dd.precipitation_sum == none || dd.precipitation_sum == some []) &&
    (dd.precipitation_probability_max == none || dd.precipitation_probability_max == some []) &&
    (dd.apparent_temperature_max == none || dd.apparent_temperature_max == some []) &&
    (dd.apparent_temperature_min == none || dd.apparent_temperature_min == some []) &&
    (dd.uv_index_max == none || dd.uv_index_max == some [])

/-- Every one of the ten daily sequences is absent (missing key). -/
def allAbsent (d : JsonDoc) : Bool :=
  match d.daily with
  | none => true
  | some dd =>
    dd.weather_code == none && dd.wind_gusts_10m_max == none &&
    dd.wind_speed_10m_max == none && dd.temperature_2m_max == none &&
    dd.temperature_2m_min == none && dd.precipitation_sum == none &&
    dd.precipitation_probability_max == none && dd.apparent_temperature_max == none &&
    dd.apparent_temperature_min == none && dd.uv_index_max == none

/-- A forecast document triggering exactly the Tier-2 Flood Watch hazard. -/
def floodDoc : JsonDoc :=
  { error := none
    full_address := none
    daily := some { emptyDaily with precipitation_sum := some [30] } }

/-- The error envelope the forecast fetcher returns for out-of-range
coordinates, as stored by `after_tool_callback`. -/
def errorEnvelope : JsonDoc :=
  { error := some "Latitude must be in range [-90; 90]"
    full_address := none
    daily := none }

/-- The forecast document in which every one of the ten daily sequences is
present as an empty list. -/
def allEmptyListsDoc : JsonDoc :=
  { error := none
    full_address := none
    daily := some ⟨some [], some [], some [], some [], some [], some [], some [], some [],
      some [], some []⟩ }

/-! ### Helper lemmas -/

theorem le_foldl_max (xs : List ℚ) (a : ℚ) : a ≤ xs.foldl max a := by
  induction xs generalizing a with
  | nil => exact le_refl a
  | cons x xs ih => exact le_trans (le_max_left a x) (ih (max a x))

theorem mem_le_foldl_max {g : ℚ} {xs : List ℚ} (a : ℚ) (hg : g ∈ xs) :
    g ≤ xs.foldl max a := by
  induction xs generalizing a with
  | nil => cases hg
  | cons x xs ih =>
    rcases List.mem_cons.mp hg with h | h
    · subst h; exact le_trans (le_max_right a g) (le_foldl_max xs (max a g))
    · exact ih (max a x) h

theorem pyMax_lt_of_mem {g c : ℚ} {l : List ℚ} (hg : g ∈ l) (hc : c < g) :
    ∃ m, pyMax l = some m ∧ c < m := by
  cases l with
  | nil => cases hg
  | cons x xs =>
    refine ⟨xs.foldl max x, rfl, ?_⟩
    rcases List.mem_cons.mp hg with h | h
    · subst h; exact lt_of_lt_of_le hc (le_foldl_max xs g)
    · exact lt_of_lt_of_le hc (mem_le_foldl_max x h)

theorem runChecks_eq {d : JsonDoc} {f : Hazard → Bool} (h : runChecks d = some f) :
    _check_tornadic_conditions d = some (f .tornado) ∧
    _check_blizzard_conditions d = some (f .blizzard) ∧
    _check_flood_watch d = some (f .floodWatch) ∧
    _check_ice_storm d = some (f .iceStorm) ∧
    _check_extreme_temps d = some (f .extremeTemps) ∧
    _check_dense_fog d = some (f .denseFog) ∧
    _check_high_winds d = some (f .highWinds) ∧
    _check_uv_index d = some (f .highUV) ∧
    _check_moderate_precipitation d = some (f .moderatePrecip) := by
  unfold runChecks at h
  simp only [bind, Option.bind_eq_some, pure, Option.some.injEq] at h
  obtain ⟨t, e1, b, e2, fl, e3, ic, e4, et, e5, fo, e6, hw, e7, uv, e8, mp, e9, hf⟩ := h
  subst hf
  exact ⟨e1, e2, e3, e4, e5, e6, e7, e8, e9⟩

theorem mem_hazardList (h : Hazard) : h ∈ hazardList := by
  cases h <;> simp [hazardList]

theorem classify_spec {d : JsonDoc} {hs : List Hazard} (h : classify d = some hs) :
    ∃ f, runChecks d = some f ∧ ∀ hz, (hz ∈ hs ↔ f hz = true) := by
  unfold classify at h
  cases e : runChecks d with
  | none => rw [e] at h; exact absurd h (by simp)
  | some f =>
    rw [e] at h
    simp only [Option.map_some', Option.some.injEq] at h
    refine ⟨f, rfl, fun hz => ?_⟩
    rw [← h, List.mem_filter]
    exact ⟨fun hf => hf.2, fun hf => ⟨mem_hazardList hz, hf⟩⟩

/-- Evaluation of the guardrail once every hazard check is known to return a
value: the two Tier-3 gates in order, then the advisory pass-through. -/
theorem after_model_eval (loc : Option String) (d : JsonDoc) (text : String)
    {t b fl ic et fo hw uv mp : Bool}
    (e1 : _check_tornadic_conditions d = some t)
    (e2 : _check_blizzard_conditions d = some b)
    (e3 : _check_flood_watch d = some fl)
    (e4 : _check_ice_storm d = some ic)
    (e5 : _check_extreme_temps d = some et)
    (e6 : _check_dense_fog d = some fo)
    (e7 : _check_high_winds d = some hw)
    (e8 : _check_uv_index d = some uv)
    (e9 : _check_moderate_precipitation d = some mp) :
    after_model_callback ⟨loc, some (.obj d)⟩ text =
      if t && !(strContains text TORNADO_MARKER) then
        some (TIER3_FALLBACK, [.validationStart, .tornadoViolation])
      else if b && !(strContains text BLIZZARD_MARKER) then
        some (TIER3_FALLBACK, [.validationStart, .blizzardViolation])
      else
        some (text, [AuditEvent.validationStart] ++ tier21Events fl ic et fo hw uv mp text ++
          [AuditEvent.validationComplete]) := by
  simp only [after_model_callback, e1, e2, e3, e4, e5, e6, e7, e8, e9, Option.some_bind,
    bind, pure, Option.bind]

/-- Closure of the released text: whatever the guardrail returns is either
the candidate verbatim or the fixed Tier-3 fallback. -/
theorem amc_text_cases (state : CbState) (text r : String) (ev : List AuditEvent)
    (h : after_model_callback state text = some (r, ev)) :
    r = text ∨ r = TIER3_FALLBACK := by
  rcases state with ⟨loc, raw⟩
  rcases raw with _ | v
  · simp [after_model_callback] at h
    exact Or.inl h.1.symm
  rcases v with _ | d
  · simp [after_model_callback] at h
    exact Or.inl h.1.symm
  simp only [after_model_callback, bind, pure] at h
  rw [Option.bind_eq_some] at h
  obtain ⟨t, e1, h⟩ := h
  cases hg1 : (t && !(strContains text TORNADO_MARKER)) <;> rw [hg1] at h
  case true =>
    simp at h
    exact Or.inr h.1.symm
  case false =>
    simp only [Bool.false_eq_true, if_false] at h
    rw [Option.bind_eq_some] at h
    obtain ⟨b, e2, h⟩ := h
    cases hg2 : (b && !(strContains text BLIZZARD_MARKER)) <;> rw [hg2] at h
    case true =>
      simp at h
      exact Or.inr h.1.symm
    case false =>
      simp only [Bool.false_eq_true, if_false] at h
      rw [Option.bind_eq_some] at h
      obtain ⟨fl, e3, h⟩ := h
      rw [Option.bind_eq_some] at h
      obtain ⟨ic, e4, h⟩ := h
      rw [Option.bind_eq_some] at h
      obtain ⟨et, e5, h⟩ := h
      rw [Option.bind_eq_some] at h
      obtain ⟨fo, e6, h⟩ := h
      rw [Option.bind_eq_some] at h
      obtain ⟨hw, e7, h⟩ := h
      rw [Option.bind_eq_some] at h
      obtain ⟨uv, e8, h⟩ := h
      rw [Option.bind_eq_some] at h
      obtain ⟨mp, e9, h⟩ := h
      simp at h
      exact Or.inl h.1.symm

/-- Pass-through form of the guardrail: when the checks succeed and every
triggered Tier-3 hazard has its marker in the text, the candidate is
released verbatim with the advisory notices in the audit trail. -/
theorem amc_pass_of_tier3_markers (loc : Option String) (d : JsonDoc) (text : String)
    {f : Hazard → Bool} (hf : runChecks d = some f)
    (ht : f .tornado = true → strContains text TORNADO_MARKER = true)
    (hb : f .blizzard = true → strContains text BLIZZARD_MARKER = true) :
    after_model_callback ⟨loc, some (.obj d)⟩ text =
      some (text, [AuditEvent.validationStart] ++
        tier21Events (f .floodWatch) (f .iceStorm) (f .extremeTemps) (f .denseFog)
          (f .highWinds) (f .highUV) (f .moderatePrecip) text ++
        [AuditEvent.validationComplete]) := by
  obtain ⟨e1, e2, e3, e4, e5, e6, e7, e8, e9⟩ := runChecks_eq hf
  have hg1 : (f .tornado && !(strContains text TORNADO_MARKER)) = false := by
    cases hft : f Hazard.tornado
    · rfl
    · simp [ht hft]
  have hg2 : (f .blizzard && !(strContains text BLIZZARD_MARKER)) = false := by
    cases hfb : f Hazard.blizzard
    · rfl
    · simp [hb hfb]
  rw [after_model_eval loc d text e1 e2 e3 e4 e5 e6 e7 e8 e9,
    if_neg (by simp [hg1]), if_neg (by simp [hg2])]

/-! ### Claims -/

/-- C1: for every forecast that triggers the Tornado condition and every
candidate text missing the exact Tornado marker, the guardrail replaces the
whole response with the fixed fallback-to-authority message and stops: the
audit trail carries exactly one Tier-3 violation and no further hazard is
evaluated against the candidate. -/
theorem C1_tier3_tornado_terminal (loc : Option String) (d : JsonDoc) (text : String)
    (htrig : _check_tornadic_conditions d = some true)
    (hmiss : strContains text TORNADO_MARKER = false) :
    after_model_callback ⟨loc, some (.obj d)⟩ text =
      some (TIER3_FALLBACK, [.validationStart, .tornadoViolation]) := by
  simp [after_model_callback, htrig, hmiss]

/-- Witness for C1 on a forecast triggering both Tornado and Blizzard and a
marker-free candidate. -/
theorem C1_tier3_tornado_terminal_witness :
    after_model_callback
      ⟨none, some (.obj
        { error := none
          full_address := none
          daily := some { emptyDaily with
            weather_code := some [96, 75]
            wind_gusts_10m_max := some [100]
            wind_speed_10m_max := some [70]
            temperature_2m_max := some [-5] } })⟩
      "Sunny and calm." =
      some (TIER3_FALLBACK, [.validationStart, .tornadoViolation]) :=
  C1_tier3_tornado_terminal none _ "Sunny and calm." (by decide) (by decide)

/-- C5: with no stored weather-data dictionary in the session, the guardrail
returns the candidate unchanged and records only the skip event. -/
theorem C5_no_forecast_passthrough (state : CbState) (text : String)
    (h : state.raw_weather_data = none ∨ state.raw_weather_data = some .notDict) :
    after_model_callback state text = some (text, [.validationStart, .skippedNoData]) := by
  rcases h with h | h <;> simp [after_model_callback, h]

/-- Witness for C5 at the fresh session state. -/
theorem C5_no_forecast_passthrough_witness :
    after_model_callback ⟨none, none⟩ "A fine day ahead." =
      some ("A fine day ahead.", [.validationStart, .skippedNoData]) :=
  C5_no_forecast_passthrough ⟨none, none⟩ "A fine day ahead." (Or.inl rfl)

/-- C4: a forecast whose code sequence contains 96 and whose gust sequence
holds a value strictly above 80 triggers Tornado; a gust maximum of exactly
80 does not (the comparison is strict). -/
theorem C4_tornado_strict_gust (d : JsonDoc) (dd : DailyData) (codes : List ℤ)
    (gusts : List ℚ) (hd : d.daily = some dd) (hc : dd.weather_code = some codes)
    (hg : dd.wind_gusts_10m_max = some gusts) :
    ((96 : ℤ) ∈ codes → (∃ g ∈ gusts, (80 : ℚ) < g) →
      _check_tornadic_conditions d = some true) ∧
    (pyMax gusts = some 80 → _check_tornadic_conditions d = some false) := by
  constructor
  · rintro h96 ⟨g, hgmem, hggt⟩
    obtain ⟨m, hm, hmgt⟩ := pyMax_lt_of_mem hgmem hggt
    have hsev : codes.any (fun c => c == 95 || c == 96 || c == 99) = true :=
      List.any_eq_true.mpr ⟨96, h96, by decide⟩
    simp [_check_tornadic_conditions, _get_daily_data, hd, hc, hg, hm, hsev,
      TORNADO_GUST_KMH, hmgt]
  · intro hmax
    simp [_check_tornadic_conditions, _get_daily_data, hd, hc, hg, hmax, TORNADO_GUST_KMH]

/-- Witness for C4: gusts up to 95 trigger, a gust maximum of exactly 80
does not. -/
theorem C4_tornado_strict_gust_witness :
    _check_tornadic_conditions
      { error := none
        full_address := none
        daily := some { emptyDaily with
          weather_code := some [96]
          wind_gusts_10m_max := some [60, 95] } } =
      some true ∧
    _check_tornadic_conditions
      { error := none
        full_address := none
        daily := some { emptyDaily with
          weather_code := some [96]
          wind_gusts_10m_max := some [60, 80] } } =
      some false := by
  constructor
  · exact (C4_tornado_strict_gust _ _ _ _ rfl rfl rfl).1 (by decide)
      ⟨95, by decide, by norm_num⟩
  · exact (C4_tornado_strict_gust _ _ _ _ rfl rfl rfl).2 (by decide)

/-- C2 counterexample: the forecast record whose ten daily sequences are all
present as empty lists satisfies the claim hypothesis, yet classification
raises (Python `max([])` raises `ValueError`, here `none`) instead of
substituting sentinels and returning false everywhere. -/
theorem C2_counterexample :
    allAbsentOrEmpty allEmptyListsDoc = true ∧ classify allEmptyListsDoc = none := by
  decide

/-- C2 (amended): for every forecast record in which every one of the ten
daily data sequences is absent, classify substitutes the named sentinels,
triggers no hazard, and no check raises. The sentinel defaults of
`_get_daily_data` apply only to a missing key: a key present as an empty
list instead reaches the bare `max`/`min` reduction, which raises. -/
theorem C2_sentinels_on_absent (d : JsonDoc) (h : allAbsent d = true) :
    classify d = some [] := by
  rcases d with ⟨e, fa, daily⟩
  cases daily with
  | none => rfl
  | some dd =>
    rcases dd with ⟨f1, f2, f3, f4, f5, f6, f7, f8, f9, f10⟩
    simp only [allAbsent, Bool.and_eq_true, beq_iff_eq] at h
    obtain ⟨⟨⟨⟨⟨⟨⟨⟨⟨h1, h2⟩, h3⟩, h4⟩, h5⟩, h6⟩, h7⟩, h8⟩, h9⟩, h10⟩ := h
    subst h1 h2 h3 h4 h5 h6 h7 h8 h9 h10
    rfl

/-- Witness for C2 (amended) at the record with no daily dictionary. -/
theorem C2_sentinels_on_absent_witness :
    allAbsent emptyDoc = true ∧ classify emptyDoc = some [] :=
  ⟨by decide, C2_sentinels_on_absent emptyDoc (by decide)⟩

/-- C3 counterexample: a stored error envelope is a dict, so the guardrail
does not branch on the `error` key and does run classification on the
envelope: the audit trail ends in the validation-complete event of the
classification path (a skipped validation would read skippedNoData
instead), and classify evaluates on the envelope, returning no hazards. -/
theorem C3_counterexample :
    after_model_callback ⟨none, some (.obj errorEnvelope)⟩ "It is sunny." =
      some ("It is sunny.", [.validationStart, .validationComplete]) ∧
    classify errorEnvelope = some [] := by
  decide

/-- C3 (amended): an error envelope stored as weather data does get
classified, but because the envelope has no `daily` field every check
substitutes its sentinel and returns false, so no hazard triggers and any
candidate passes through unchanged. -/
theorem C3_envelope_harmless (msg text : String) (loc fa : Option String) :
    after_model_callback ⟨loc, some (.obj ⟨some msg, fa, none⟩)⟩ text =
      some (text, [.validationStart, .validationComplete]) ∧
    classify ⟨some msg, fa, none⟩ = some [] := by
  constructor <;> rfl

/-- C6: a candidate response containing the mandated marker of every
triggered Tier-3 and Tier-2 hazard of a classifiable forecast passes
through the guardrail unchanged. -/
theorem C6_roundtrip (loc : Option String) (d : JsonDoc) (text : String) (hs : List Hazard)
    (hc : classify d = some hs)
    (hm : ∀ h ∈ hs, 2 ≤ tier h → markerOk h text = true) :
    ∃ ev, after_model_callback ⟨loc, some (.obj d)⟩ text = some (text, ev) := by
  obtain ⟨f, hf, hmem⟩ := classify_spec hc
  refine ⟨_, amc_pass_of_tier3_markers loc d text hf ?_ ?_⟩
  · intro hft
    have hmk := hm _ ((hmem Hazard.tornado).mpr hft) (by decide)
    simpa [markerOk] using hmk
  · intro hfb
    have hmk := hm _ ((hmem Hazard.blizzard).mpr hfb) (by decide)
    simpa [markerOk] using hmk

/-- Witness for C6 on a Flood Watch forecast and a compliant candidate. -/
theorem C6_roundtrip_witness :
    ∃ ev, after_model_callback ⟨none, some (.obj floodDoc)⟩
      "A Flood Watch is in effect today." =
      some ("A Flood Watch is in effect today.", ev) :=
  C6_roundtrip none floodDoc "A Flood Watch is in effect today." [Hazard.floodWatch]
    (by decide) (by decide)

/-- C7: when no triggered Tier-3 hazard is missing its marker the candidate
is released verbatim even if Tier-2/1 markers are missing (marker misses at
those tiers only add audit events), and every released text is either the
original candidate or the fixed Tier-3 fallback, never any other string. -/
theorem C7_tier21_advisory_only :
    (∀ (loc : Option String) (d : JsonDoc) (text : String) (hs : List Hazard),
      classify d = some hs → (∀ h ∈ hs, tier h = 3 → markerOk h text = true) →
      ∃ ev, after_model_callback ⟨loc, some (.obj d)⟩ text = some (text, ev)) ∧
    (∀ (state : CbState) (text r : String) (ev : List AuditEvent),
      after_model_callback state text = some (r, ev) → r = text ∨ r = TIER3_FALLBACK) := by
  constructor
  · intro loc d text hs hc hm
    obtain ⟨f, hf, hmem⟩ := classify_spec hc
    refine ⟨_, amc_pass_of_tier3_markers loc d text hf ?_ ?_⟩
    · intro hft
      have hmk := hm _ ((hmem Hazard.tornado).mpr hft) (by decide)
      simpa [markerOk] using hmk
    · intro hfb
      have hmk := hm _ ((hmem Hazard.blizzard).mpr hfb) (by decide)
      simpa [markerOk] using hmk
  · exact amc_text_cases

/-- Witness for C7: a Flood Watch forecast with a candidate missing the
Flood Watch marker still passes through verbatim, and the closure property
instantiated on the skip path. -/
theorem C7_tier21_advisory_only_witness :
    (∃ ev, after_model_callback ⟨none, some (.obj floodDoc)⟩ "Dry day." =
      some ("Dry day.", ev)) ∧
    ("Dry day." = "Dry day." ∨ "Dry day." = TIER3_FALLBACK) :=
  ⟨C7_tier21_advisory_only.1 none floodDoc "Dry day." [Hazard.floodWatch]
      (by decide) (by decide),
   C7_tier21_advisory_only.2 ⟨none, none⟩ "Dry day." "Dry day."
      [.validationStart, .skippedNoData] (by rfl)⟩

/-- C8: the guardrail writes nothing to the session, so a second call with
the same candidate, run on the state the first call left behind, returns
the same text and the same audit events (deterministic, no hidden
counters). -/
theorem C8_two_calls (s : CbState) (text : String) (s1 : CbState) (r : String)
    (ev : List AuditEvent) (h : validateRun s text = some (s1, r, ev)) :
    s1 = s ∧ validateRun s1 text = some (s1, r, ev) := by
  unfold validateRun at h ⊢
  cases e : after_model_callback s text with
  | none => rw [e] at h; simp at h
  | some p =>
    rw [e] at h
    simp only [Option.map_some', Option.some.injEq, Prod.ext_iff] at h
    obtain ⟨h1, h2, h3⟩ := h
    subst h1
    refine ⟨rfl, ?_⟩
    rw [e]
    simp [Prod.ext_iff, h2, h3]

/-- Witness for C8 at a fresh session state. -/
theorem C8_two_calls_witness :
    (⟨none, none⟩ : CbState) = ⟨none, none⟩ ∧
    validateRun ⟨none, none⟩ "Clear skies." =
      some (⟨none, none⟩, "Clear skies.", [.validationStart, .skippedNoData]) :=
  C8_two_calls ⟨none, none⟩ "Clear skies." ⟨none, none⟩ "Clear skies."
    [.validationStart, .skippedNoData] (by rfl)

/-- C9: a first get on an absent session id creates the record with both
fields null; after an update naming only the confirmed location, a later
get on the same id returns that location with the stored forecast still
null. -/
theorem C9_session_store (store : Store) (sid x : String)
    (habs : List.lookup sid store = none) :
    (get_session store sid).2 = ⟨none, none⟩ ∧
    (get_session (update (get_session store sid).1 sid ⟨some (some x), none⟩) sid).2 =
      ⟨some x, none⟩ := by
  simp [get_session, habs, update, List.lookup]

/-- Witness for C9 on the empty cache and session id s1. -/
theorem C9_session_store_witness :
    (get_session ([] : Store) "s1").2 = ⟨none, none⟩ ∧
    (get_session (update (get_session ([] : Store) "s1").1 "s1" ⟨some (some "X"), none⟩)
      "s1").2 = ⟨some "X", none⟩ :=
  C9_session_store [] "s1" "X" rfl

/-- C10: the geocoder branch of `after_tool_callback` updates the confirmed
location only when the result parsed as a JSON object carrying a
full_address key; an error envelope (no such key) or invalid JSON leaves
the session state unchanged. -/
theorem C10_geo_guard (state : CbState) (res : ToolResult) :
    ((after_tool_callback "get_coordinates_for_location_string" res state).confirmed_location ≠
        state.confirmed_location →
      ∃ doc addr, res = .parsed (.obj doc) ∧ doc.full_address = some addr) ∧
    (∀ doc, res = .parsed (.obj doc) → doc.full_address = none →
      after_tool_callback "get_coordinates_for_location_string" res state = state) ∧
    (res = .invalidJson →
      after_tool_callback "get_coordinates_for_location_string" res state = state) := by
  refine ⟨?_, ?_, ?_⟩
  · intro hne
    rcases res with _ | v
    · exact absurd rfl hne
    rcases v with _ | doc
    · exact absurd rfl hne
    rcases doc with ⟨de, dfa, dd⟩
    cases dfa with
    | none => exact absurd rfl hne
    | some a => exact ⟨⟨de, some a, dd⟩, a, rfl, rfl⟩
  · rintro doc rfl hfa
    rcases doc with ⟨de, dfa, dd⟩
    cases dfa with
    | none => rfl
    | some a => exact Option.noConfusion hfa
  · rintro rfl; rfl

/-- Witness for C10 on the out-of-range-latitude error envelope. -/
theorem C10_geo_guard_witness :
    after_tool_callback "get_coordinates_for_location_string"
      (.parsed (.obj errorEnvelope)) ⟨some "Paris, France", none⟩ =
      ⟨some "Paris, France", none⟩ :=
  (C10_geo_guard ⟨some "Paris, France", none⟩ (.parsed (.obj errorEnvelope))).2.1
    errorEnvelope rfl rfl

end FrankyX
